import Mathlib

/-!
Shallow embedding of the signal/callback bridge of `src/signal.rs` (the gtk-rs
signal module): the `CallbackGuard` panic containment, the idle/timeout
scheduling trio, the per-signal connect functions with their native signal
names and trampolines, and the argument-marshalling trampolines.

Machine details are modelled as follows: raw C strings are `List Nat` byte
sequences, native object and closure pointers are `Nat` addresses, the heap of
boxed closures is an explicit `AllocState`, a closure body that may panic
returns an `Outcome`, and what a trampoline hands back to the native caller is
a `DispatchResult` (either a returned value or process termination).
-/

/-- Result of a closure body: either a normal value or a Rust panic/unwind. -/
inductive Outcome (α : Type) where
  | normal (a : α)
  | panicked
deriving DecidableEq

/-- What a trampoline dispatch produces towards the native caller: a returned
value, or immediate process termination with an exit code.  There is no
constructor for an unwind crossing the boundary. -/
inductive DispatchResult (α : Type) where
  | returned (a : α)
  | terminated (code : Nat)
deriving DecidableEq

/-- Embeds the `callback_guard!()` + closure-call pattern shared by every
trampoline in `src/signal.rs`: a `CallbackGuard` value is alive for the whole
closure call, and its `Drop` impl (lines 79-85) calls `process::exit(101)`
whenever it is dropped while `thread::panicking()`, i.e. whenever the closure
body unwinds; a normal return is forwarded unchanged. -/
def guardedCall {α : Type} (body : Outcome α) : DispatchResult α :=
  match body with
  | Outcome.normal a => DispatchResult.returned a
  | Outcome.panicked => DispatchResult.terminated 101

/-- `glib::source::Continue(pub bool)`: whether an idle/timeout source should
keep firing. -/
structure Continue where
  val : Bool
deriving DecidableEq

/-- `ToGlib` for `Continue`: the raw `gboolean` handed back to GLib. -/
def Continue.to_glib (c : Continue) : Bool := c.val

/-- `Inhibit(pub bool)` (src lines 63-64): whether to stop propagating a
signal to other handlers. -/
structure Inhibit where
  val : Bool
deriving DecidableEq

/-- `ToGlib` for `Inhibit` (src lines 66-73). -/
def Inhibit.to_glib (i : Inhibit) : Bool := i.val

/-- Actions performed by the `callback_guard!` macro (src lines 87-94): it
always installs the `CallbackGuard`, and it runs
`assert_initialized_main_thread!` only under `cfg!(debug_assertions)`. -/
structure GuardActions where
  armed : Bool
  checks_main_thread : Bool
deriving DecidableEq

/-- The `callback_guard!` macro as a function of the compile-time
`debug_assertions` flag. -/
def callback_guard (debug_assertions : Bool) : GuardActions :=
  { armed := true, checks_main_thread := debug_assertions }

/-- Heap of live boxed-closure allocations: `next` is the next fresh address,
`live` the addresses of outstanding boxes. -/
structure AllocState where
  next : Nat
  live : List Nat
deriving DecidableEq

/-- `into_raw` (src lines 108-112): boxes the closure
(`Box<RefCell<Box<FnMut() -> Continue>>>`) and leaks it to a raw pointer,
returned as opaque user data. -/
def into_raw (s : AllocState) : Nat × AllocState :=
  (s.next, { next := s.next + 1, live := s.next :: s.live })

/-- `destroy_closure` (src lines 103-106): reconstitutes the box from the raw
pointer and drops it, freeing that allocation. -/
def destroy_closure (p : Nat) (s : AllocState) : AllocState :=
  { next := s.next, live := s.live.erase p }

/-- The inline `Box::into_raw(Box::new(Box::new(f)))` allocation performed by
every per-signal connect function. -/
def box_into_raw (s : AllocState) : Nat × AllocState :=
  into_raw s

/-- Modelled from the spec: the `assert_initialized_main_thread!` macro is
defined outside the provided sources (in the crate's runtime module); per the
spec it is "an explicit runtime check that fails fast with a
`WrongThreadError`" when the caller is not the event-loop-owning main thread.
Returns whether execution may proceed. -/
def assert_initialized_main_thread (onMainThread : Bool) : Bool :=
  onMainThread

/-- Results produced by the native layer, treated as an oracle: what
`g_signal_connect` returns (`connectResult`, with 0 meaning the registration
failed at the native layer) and what `g_idle_add_full` /
`g_timeout_add_full` return (`sourceId`). -/
structure NativeEnv where
  connectResult : Nat
  sourceId : Nat
deriving DecidableEq

/-- The registration record handed to `g_idle_add_full` /
`g_timeout_add_full`: the opaque user-data pointer and the destroy
notification the native layer will invoke to free it. -/
structure SourceReg where
  data : Nat
  destroy : Nat → AllocState → AllocState

/-- `idle_add` (src lines 116-123): asserts the main thread, then registers
`trampoline` with the boxed closure from `into_raw` and `destroy_closure` as
the destroy notification.  `none` models the fail-fast abort before any
native call. -/
def idle_add (env : NativeEnv) (onMain : Bool) (s : AllocState) :
    Option (Nat × SourceReg × AllocState) :=
  if assert_initialized_main_thread onMain then
    let pr := into_raw s
    some (env.sourceId, { data := pr.1, destroy := destroy_closure }, pr.2)
  else
    none

/-- `timeout_add` (src lines 127-134): same shape as `idle_add` with a
millisecond interval. -/
def timeout_add (env : NativeEnv) (_interval : Nat) (onMain : Bool) (s : AllocState) :
    Option (Nat × SourceReg × AllocState) :=
  if assert_initialized_main_thread onMain then
    let pr := into_raw s
    some (env.sourceId, { data := pr.1, destroy := destroy_closure }, pr.2)
  else
    none

/-- `timeout_add_seconds` (src lines 138-145). -/
def timeout_add_seconds (env : NativeEnv) (_interval : Nat) (onMain : Bool) (s : AllocState) :
    Option (Nat × SourceReg × AllocState) :=
  if assert_initialized_main_thread onMain then
    let pr := into_raw s
    some (env.sourceId, { data := pr.1, destroy := destroy_closure }, pr.2)
  else
    none

/-- The native registration a per-signal connect function performs: the signal
name string passed to `glib::signal::connect`, the trampoline function pointer
it is paired with, and the user-data pointer of the boxed closure. -/
structure SignalReg where
  signal : String
  tramp : String
  data : Nat
deriving DecidableEq

/-- `ButtonSignals::connect_clicked` (src lines 971-977): boxes the closure
and calls `connect(handle, "clicked", void_trampoline, box)` unconditionally —
the source performs no thread check and inspects no failure; the raw native
result is returned as the subscription id.  The caller's thread is an ignored
input. -/
def ButtonSignals.connect_clicked (env : NativeEnv) (_onMain : Bool) (s : AllocState) :
    Nat × SignalReg × AllocState :=
  let pr := box_into_raw s
  (env.connectResult, { signal := "clicked", tramp := "button::void_trampoline", data := pr.1 }, pr.2)

/-- `WidgetSignals::connect_button_press_event` (src lines 241-247): boxes the
closure and calls `connect(handle, "button-press-event",
event_button_trampoline, box)` unconditionally — no thread check, no failure
inspection, no free on any path. -/
def WidgetSignals.connect_button_press_event (env : NativeEnv) (_onMain : Bool) (s : AllocState) :
    Nat × SignalReg × AllocState :=
  let pr := box_into_raw s
  (env.connectResult,
    { signal := "button-press-event", tramp := "widget::event_button_trampoline", data := pr.1 },
    pr.2)

/-- Signal name registered by `SpinButtonSignals::connect_value_changed`
(src lines 1096-1102). -/
def SpinButtonSignals.connect_value_changed_signal : String := "value-changed"

/-- Signal name registered by `SpinButtonSignals::connect_wrapped`
(src lines 1104-1110): the source passes the string "clicked" to `connect`. -/
def SpinButtonSignals.connect_wrapped_signal : String := "clicked"

/-- `CStr::from_ptr(c_str).to_bytes()` (src line 943): the bytes of a
NUL-terminated C string, up to and excluding the first NUL byte. -/
def cstr_to_bytes (raw : List Nat) : List Nat :=
  raw.takeWhile (fun b => b ≠ 0)

/-- Whether a byte is a UTF-8 continuation byte (0x80-0xBF). -/
def utf8_cont (b : Nat) : Bool :=
  0x80 ≤ b && b ≤ 0xBF

/-- The UTF-8 validity check performed by `str::from_utf8` (std validation
ranges: ASCII; C2-DF + 1 continuation; E0 A0-BF / E1-EC 80-BF / ED 80-9F /
EE-EF 80-BF + 1 continuation; F0 90-BF / F1-F3 80-BF / F4 80-8F + 2
continuations). -/
def utf8_valid : List Nat → Bool
  | [] => true
  | b :: rest =>
    if b ≤ 0x7F then utf8_valid rest
    else if 0xC2 ≤ b && b ≤ 0xDF then
      match rest with
      | c1 :: rest1 => utf8_cont c1 && utf8_valid rest1
      | [] => false
    else if 0xE0 ≤ b && b ≤ 0xEF then
      match rest with
      | c1 :: c2 :: rest2 =>
        (if b = 0xE0 then 0xA0 ≤ c1 && c1 ≤ 0xBF
          else if b = 0xED then 0x80 ≤ c1 && c1 ≤ 0x9F
          else utf8_cont c1) && utf8_cont c2 && utf8_valid rest2
      | _ => false
    else if 0xF0 ≤ b && b ≤ 0xF4 then
      match rest with
      | c1 :: c2 :: c3 :: rest3 =>
        (if b = 0xF0 then 0x90 ≤ c1 && c1 ≤ 0xBF
          else if b = 0xF4 then 0x80 ≤ c1 && c1 ≤ 0x8F
          else utf8_cont c1) && utf8_cont c2 && utf8_cont c3 && utf8_valid rest3
      | _ => false
    else false

/-- `entry::string_trampoline` (src lines 940-946): under the callback guard,
takes the C-string bytes, validates UTF-8 with `str::from_utf8(buf).unwrap()`
— the `unwrap` panics on invalid encoding, which the guard turns into process
termination — and otherwise hands the closure exactly the validated bytes
(a `&str` is a view of those same bytes). -/
def string_trampoline {α : Type} (f : List Nat → Outcome α) (c_str : List Nat) :
    DispatchResult α :=
  guardedCall
    (let buf := cstr_to_bytes c_str
     if utf8_valid buf then f buf else Outcome.panicked)

/-- Address of a native event struct (`*mut GdkEventAny` and friends). -/
structure EventPtr where
  addr : Nat
deriving DecidableEq

/-- `widget::event_any_trampoline` (src lines 668-672): under the callback
guard, invokes the closure with the widget and with `transmute(event)` — the
very pointer the native caller supplied, reinterpreted as a reference; no
copy of the event struct is made.  The second component records any event
reference the dispatch stores past the invocation: the source stores none. -/
def event_any_trampoline {α : Type} (w : Nat) (event : EventPtr)
    (f : Nat → EventPtr → Outcome α) : DispatchResult α × Option EventPtr :=
  (guardedCall (f w event), none)

/-- `widget::event_button_trampoline` (src lines 674-678): identical shape,
`transmute(event)` pass-through. -/
def event_button_trampoline {α : Type} (w : Nat) (event : EventPtr)
    (f : Nat → EventPtr → Outcome α) : DispatchResult α × Option EventPtr :=
  (guardedCall (f w event), none)

/-- `widget::event_key_trampoline` (src lines 710-714): identical shape,
`transmute(event)` pass-through. -/
def event_key_trampoline {α : Type} (w : Nat) (event : EventPtr)
    (f : Nat → EventPtr → Outcome α) : DispatchResult α × Option EventPtr :=
  (guardedCall (f w event), none)

/-- `trampoline` for idle/timeout sources (src lines 98-101): under the
callback guard, calls the stored `FnMut() -> Continue` closure (modelled
state-passing) and returns `Continue::to_glib` — the raw boolean — to the
native scheduler. -/
def trampoline {σ : Type} (func : σ → Continue × σ) (st : σ) :
    DispatchResult Bool × σ :=
  let r := func st
  (guardedCall (Outcome.normal (Continue.to_glib r.1)), r.2)

/-- State of the closure right before its n-th dispatch (0-indexed). -/
def iter {σ : Type} (f : σ → Continue × σ) (st : σ) : Nat → σ
  | 0 => st
  | n + 1 => iter f (f st).2 n

/-- The native scheduler semantics for a recurring source: the n-th dispatch
occurs iff the source was still armed after the previous ones; GLib re-arms
the source exactly when the trampoline returned `true`, and a terminated
process fires nothing further. -/
def source_runs {σ : Type} (f : σ → Continue × σ) (st : σ) : Nat → Bool
  | 0 => true
  | n + 1 =>
    match trampoline f st with
    | (DispatchResult.returned b, st1) => b && source_runs f st1 n
    | (DispatchResult.terminated _, _) => false

/-- The trampoline function pointers of the `status_icon` module. -/
inductive StatusIconTrampoline where
  | void_t
  | event_t
  | popup_menu_t
  | query_tooltip_t
  | size_changed_t
deriving DecidableEq

/-- Event-argument shape named in a closure type. -/
inductive EventShape where
  | button
  | scroll
deriving DecidableEq

/-- A per-signal connect registration: native signal name and the trampoline
function pointer passed alongside it. -/
structure ConnectInfo where
  signal : String
  tramp : StatusIconTrampoline
deriving DecidableEq

/-- `StatusIconSignals::connect_button_press_event` (src lines 1651-1657):
registers against "button-press-event" with `event_trampoline`. -/
def StatusIconSignals.connect_button_press_event_info : ConnectInfo :=
  { signal := "button-press-event", tramp := StatusIconTrampoline.event_t }

/-- `StatusIconSignals::connect_button_release_event` (src lines 1659-1665):
registers against "button-release-event" with `event_trampoline`. -/
def StatusIconSignals.connect_button_release_event_info : ConnectInfo :=
  { signal := "button-release-event", tramp := StatusIconTrampoline.event_t }

/-- `StatusIconSignals::connect_scroll_event` (src lines 1683-1689):
registers against "scroll-event" with `event_trampoline`. -/
def StatusIconSignals.connect_scroll_event_info : ConnectInfo :=
  { signal := "scroll-event", tramp := StatusIconTrampoline.event_t }

/-- Closure event shape declared by
`StatusIconSignals::connect_button_press_event` (src line 1622):
`Fn(&StatusIcon, &EventButton) -> bool`. -/
def StatusIconSignals.connect_button_press_event_shape : EventShape :=
  EventShape.button

/-- Closure event shape declared by
`StatusIconSignals::connect_button_release_event` (src line 1623). -/
def StatusIconSignals.connect_button_release_event_shape : EventShape :=
  EventShape.button

/-- Closure event shape declared by
`StatusIconSignals::connect_scroll_event` (src line 1626). -/
def StatusIconSignals.connect_scroll_event_shape : EventShape :=
  EventShape.scroll

/-- The closure type `status_icon::event_trampoline` stores and calls through
(src lines 1705-1709): `Fn(&StatusIcon, &EventScroll) -> bool`. -/
def status_icon_event_trampoline_shape : EventShape :=
  EventShape.scroll

/-- `status_icon::event_trampoline` (src lines 1705-1709): the single shared
trampoline for the three status-icon event signals; under the callback guard
it invokes the stored closure with `transmute(event)` — the raw native event
pointer, with no per-shape conversion. -/
def status_icon_event_trampoline {α : Type} (icon : Nat) (event : EventPtr)
    (f : Nat → EventPtr → Outcome α) : DispatchResult α :=
  guardedCall (f icon event)

/-- A sample recurring closure for exercising the scheduler model: returns
`Continue(true)` on its first invocation and `Continue(false)` on every later
one, so the source stops after exactly two dispatches. -/
def contTwo : Nat → Continue × Nat :=
  fun n => ({ val := decide (n = 0) }, n + 1)

/-- Claim C1: a panic/unwind inside a dispatched closure is caught at the
trampoline boundary by the `CallbackGuard` drop and converted into process
termination with exit code 101; a normal return is forwarded; the unwind
never propagates past the dispatch frame (witnessed at the concrete
`event_any_trampoline` and `string_trampoline` boundaries with panicking
closures). -/
theorem panic_terminates_at_dispatch_boundary {α : Type} (o : Outcome α) (w : Nat)
    (event : EventPtr) :
    ((∃ a, o = Outcome.normal a ∧ guardedCall o = DispatchResult.returned a) ∨
      (o = Outcome.panicked ∧ guardedCall o = DispatchResult.terminated 101)) ∧
    event_any_trampoline w event (fun _ _ => (Outcome.panicked : Outcome Inhibit)) =
      (DispatchResult.terminated 101, none) ∧
    string_trampoline (fun _ => (Outcome.panicked : Outcome Unit)) [] =
      DispatchResult.terminated 101 := by
  refine ⟨?_, rfl, rfl⟩
  cases o with
  | normal a => exact Or.inl ⟨a, rfl, rfl⟩
  | panicked => exact Or.inr ⟨rfl, rfl⟩

/-- Claim C2: the claim says `SpinButtonSignals::connect_wrapped` registers
the closure against the "wrapped" event name; the source (line 1107) passes
"clicked" instead — a copy-paste slip from `connect_clicked`, contradicting
the function's own name and its trait declaration —, while
`connect_value_changed` does use its matching name. -/
theorem connect_wrapped_uses_clicked_name :
    SpinButtonSignals.connect_wrapped_signal = "clicked" ∧
    SpinButtonSignals.connect_wrapped_signal ≠ "wrapped" ∧
    SpinButtonSignals.connect_value_changed_signal = "value-changed" := by
  refine ⟨rfl, ?_, rfl⟩
  decide

/-- Claim C3 counterexample: the claim says every registration operation,
including every signal connect function, fails fast off the main thread and
performs no native registration; but `ButtonSignals::connect_clicked`
(src lines 971-977) contains no thread check at all — called off the main
thread it still boxes the closure (address 0 allocated) and performs the
native registration (returning the native result 7). -/
theorem connect_thread_check_counterexample :
    ButtonSignals.connect_clicked ⟨7, 5⟩ false ⟨0, []⟩ =
      (7, { signal := "clicked", tramp := "button::void_trampoline", data := 0 },
        ⟨1, [0]⟩) := rfl

/-- Claim C3 (amended): only `idle_add`, `timeout_add` and
`timeout_add_seconds` run the explicit main-thread check and fail fast with
no native registration when called off the main thread; the per-signal
connect functions perform no registration-time thread check and register
unconditionally. -/
theorem registration_thread_check_amended (env : NativeEnv) (s : AllocState)
    (interval : Nat) :
    idle_add env false s = none ∧
    timeout_add env interval false s = none ∧
    timeout_add_seconds env interval false s = none ∧
    idle_add env true s =
      some (env.sourceId, { data := s.next, destroy := destroy_closure },
        ⟨s.next + 1, s.next :: s.live⟩) ∧
    ButtonSignals.connect_clicked env false s =
      (env.connectResult,
        { signal := "clicked", tramp := "button::void_trampoline", data := s.next },
        ⟨s.next + 1, s.next :: s.live⟩) ∧
    WidgetSignals.connect_button_press_event env false s =
      (env.connectResult,
        { signal := "button-press-event", tramp := "widget::event_button_trampoline",
          data := s.next },
        ⟨s.next + 1, s.next :: s.live⟩) :=
  ⟨rfl, rfl, rfl, rfl, rfl, rfl⟩

/-- Claim C4: `entry::string_trampoline` fails the whole dispatch fatally
(panic, turned into termination with code 101 by the guard) whenever the raw
C-string bytes are not valid UTF-8, for every closure — the closure is never
invoked with mangled text —, and on valid UTF-8 the closure receives exactly
the decoded string content (the validated bytes). -/
theorem string_dispatch_utf8 {α : Type} (f : List Nat → Outcome α) (c_str : List Nat) :
    string_trampoline f c_str =
      if utf8_valid (cstr_to_bytes c_str) then guardedCall (f (cstr_to_bytes c_str))
      else DispatchResult.terminated 101 := by
  unfold string_trampoline
  cases h : utf8_valid (cstr_to_bytes c_str) <;> simp [h, guardedCall]

/-- Claim C5 counterexample: the claim says a failed native registration
(modelled by the native connect call returning 0) makes the connect operation
return a `BindingError` and immediately free the boxed closure; but
`WidgetSignals::connect_button_press_event` (src lines 241-247) returns the
raw native result 0 — there is no error type anywhere in its `u64` return —
and the boxed closure (address 0) is still allocated afterwards. -/
theorem connect_failure_no_free_counterexample :
    (WidgetSignals.connect_button_press_event ⟨0, 0⟩ true ⟨0, []⟩).1 = 0 ∧
    (WidgetSignals.connect_button_press_event ⟨0, 0⟩ true ⟨0, []⟩).2.2.live = [0] :=
  ⟨rfl, rfl⟩

/-- Claim C5 (amended): every connect operation returns the native
registration call's numeric result unconditionally — there is no error
variant, and a native failure surfaces only as subscription id 0 — and the
boxed closure allocated for the registration is never freed by the connect
operation itself, on the failure path or otherwise; it stays live for the
native destroy notification. -/
theorem connect_returns_native_result_amended (env : NativeEnv) (m : Bool)
    (s : AllocState) :
    WidgetSignals.connect_button_press_event env m s =
      (env.connectResult,
        { signal := "button-press-event", tramp := "widget::event_button_trampoline",
          data := s.next },
        ⟨s.next + 1, s.next :: s.live⟩) ∧
    ButtonSignals.connect_clicked env m s =
      (env.connectResult,
        { signal := "clicked", tramp := "button::void_trampoline", data := s.next },
        ⟨s.next + 1, s.next :: s.live⟩) :=
  ⟨rfl, rfl⟩

/-- Claim C6: `destroy_closure` applied to the pointer produced by `into_raw`
deallocates exactly the boxed allocation `into_raw` created, exactly once:
the round trip leaves zero outstanding new allocations, the freed pointer is
no longer live, a second `destroy_closure` on it is a no-op (no double-free),
and the closure is freed through this destroy notification because `idle_add`
hands exactly `destroy_closure` to the native registration call. -/
theorem into_raw_destroy_closure_roundtrip (s : AllocState) (env : NativeEnv)
    (hwf : ∀ q, q ∈ s.live → q < s.next) :
    ((into_raw s).2).live = (into_raw s).1 :: s.live ∧
    (into_raw s).1 ∉ s.live ∧
    (destroy_closure (into_raw s).1 (into_raw s).2).live = s.live ∧
    (into_raw s).1 ∉ (destroy_closure (into_raw s).1 (into_raw s).2).live ∧
    destroy_closure (into_raw s).1 (destroy_closure (into_raw s).1 (into_raw s).2) =
      destroy_closure (into_raw s).1 (into_raw s).2 ∧
    idle_add env true s =
      some (env.sourceId, { data := (into_raw s).1, destroy := destroy_closure },
        (into_raw s).2) := by
  have hfresh : s.next ∉ s.live := fun h => lt_irrefl _ (hwf _ h)
  refine ⟨rfl, hfresh, ?_, ?_, ?_, rfl⟩
  · simp [into_raw, destroy_closure]
  · simpa [into_raw, destroy_closure] using hfresh
  · simp [into_raw, destroy_closure, List.erase_of_not_mem hfresh]

/-- Claim C6 witness: the round trip evaluated on the empty heap. -/
theorem into_raw_destroy_closure_roundtrip_witness :
    ((into_raw ⟨0, []⟩).2).live = (into_raw ⟨0, []⟩).1 :: [] ∧
    (into_raw ⟨0, []⟩).1 ∉ ([] : List Nat) ∧
    (destroy_closure (into_raw ⟨0, []⟩).1 (into_raw ⟨0, []⟩).2).live = [] ∧
    (into_raw ⟨0, []⟩).1 ∉ (destroy_closure (into_raw ⟨0, []⟩).1 (into_raw ⟨0, []⟩).2).live ∧
    destroy_closure (into_raw ⟨0, []⟩).1
        (destroy_closure (into_raw ⟨0, []⟩).1 (into_raw ⟨0, []⟩).2) =
      destroy_closure (into_raw ⟨0, []⟩).1 (into_raw ⟨0, []⟩).2 ∧
    idle_add ⟨3, 4⟩ true ⟨0, []⟩ =
      some (4, { data := (into_raw ⟨0, []⟩).1, destroy := destroy_closure },
        (into_raw ⟨0, []⟩).2) :=
  into_raw_destroy_closure_roundtrip ⟨0, []⟩ ⟨3, 4⟩ (by intro q hq; cases hq)

/-- Helper for claim C7: the scheduler keeps a source alive through its first
`k` dispatch slots exactly when every one of the first `k` invocations
returned `Continue(true)`. -/
theorem source_runs_eq {σ : Type} (f : σ → Continue × σ) :
    ∀ (k : Nat) (st : σ),
      source_runs f st k = decide (∀ j, j < k → (f (iter f st j)).1.val = true)
  | 0, _ => by simp [source_runs]
  | k + 1, st => by
    have ih := source_runs_eq f k (f st).2
    simp only [source_runs, trampoline, guardedCall, Continue.to_glib]
    rw [ih]
    cases hb : (f st).1.val with
    | false =>
      simp only [Bool.false_and]
      symm
      rw [decide_eq_false_iff_not]
      intro hall
      have h0 := hall 0 (Nat.succ_pos k)
      rw [show iter f st 0 = st from rfl, hb] at h0
      exact Bool.false_ne_true h0
    | true =>
      simp only [Bool.true_and]
      rw [decide_eq_decide]
      constructor
      · intro h j hj
        cases j with
        | zero => exact hb
        | succ j' => exact h j' (by omega)
      · intro h j hj
        exact h (j + 1) (by omega)

/-- Claim C7: each idle/timeout trampoline invocation returns to the native
scheduler exactly the boolean encoding of the `Continue` value the closure
returned, so the source is re-armed iff that value was `Continue(true)`;
consequently a closure whose trajectory first returns `Continue(false)` on
its N-th invocation is dispatched exactly N times — the k-th dispatch slot
fires iff k < N. -/
theorem continue_rearm_exact_count {σ : Type} (f : σ → Continue × σ) (st : σ)
    (N k : Nat) (hpos : 1 ≤ N)
    (hrun : ∀ j, j + 1 < N → (f (iter f st j)).1.val = true)
    (hstop : (f (iter f st (N - 1))).1.val = false) :
    (trampoline f st).1 = DispatchResult.returned ((f st).1.val) ∧
    (source_runs f st k = true ↔ k < N) := by
  refine ⟨rfl, ?_⟩
  rw [source_runs_eq, decide_eq_true_eq]
  constructor
  · intro h
    by_contra hk
    push_neg at hk
    have hN := h (N - 1) (by omega)
    rw [hstop] at hN
    exact Bool.false_ne_true hN
  · intro hkN j hj
    exact hrun j (by omega)

/-- Claim C7 witness: the sample closure `contTwo` stops on its second
invocation; its third dispatch slot does not fire. -/
theorem continue_rearm_exact_count_witness :
    (trampoline contTwo 0).1 = DispatchResult.returned ((contTwo 0).1.val) ∧
    (source_runs contTwo 0 2 = true ↔ 2 < 2) :=
  continue_rearm_exact_count contTwo 0 2 2 (by decide)
    (fun j hj => by
      have hj0 : j = 0 := by omega
      subst hj0
      decide)
    (by decide)

/-- Claim C8: every widget event-signal trampoline marshals the struct
argument by pointer-to-reference borrowing — the reference the closure
receives is exactly the native event argument of that invocation (a probe
closure returning its argument gets back the very same pointer, no copy) —
and the dispatch retains no event reference beyond the invocation. -/
theorem event_trampoline_borrows_pointer {α : Type} (w : Nat) (event : EventPtr)
    (f : Nat → EventPtr → Outcome α) :
    event_any_trampoline w event f = (guardedCall (f w event), none) ∧
    event_button_trampoline w event f = (guardedCall (f w event), none) ∧
    event_key_trampoline w event f = (guardedCall (f w event), none) ∧
    (event_any_trampoline w event (fun _ e => Outcome.normal e)).1 =
      DispatchResult.returned event ∧
    (event_key_trampoline w event (fun _ e => Outcome.normal e)).1 =
      DispatchResult.returned event :=
  ⟨rfl, rfl, rfl, rfl, rfl⟩

/-- Claim C9: the `callback_guard!` macro runs the dispatch-side main-thread
assertion only when `debug_assertions` is enabled; with it disabled (release
build) no thread check happens, while the panic guard is installed in every
configuration. -/
theorem callback_guard_debug_only_check (debug_assertions : Bool) :
    (callback_guard debug_assertions).checks_main_thread = debug_assertions ∧
    (callback_guard debug_assertions).armed = true ∧
    (callback_guard false).checks_main_thread = false :=
  ⟨rfl, rfl, rfl⟩

/-- Claim C10: the status-icon button-press, button-release and scroll
connections all register the single shared `status_icon::event_trampoline`,
whose stored-closure type is declared over `&EventScroll`; the closure
registered by `connect_button_press_event` is declared over `&EventButton`,
a different shape, so it is invoked through a reinterpreted function type;
and the trampoline delivers the raw native event pointer transmuted, with no
per-shape conversion. -/
theorem status_icon_shared_event_trampoline (icon : Nat) (event : EventPtr)
    (f : Nat → EventPtr → Outcome Bool) :
    StatusIconSignals.connect_button_press_event_info.tramp = StatusIconTrampoline.event_t ∧
    StatusIconSignals.connect_button_release_event_info.tramp = StatusIconTrampoline.event_t ∧
    StatusIconSignals.connect_scroll_event_info.tramp = StatusIconTrampoline.event_t ∧
    status_icon_event_trampoline_shape = EventShape.scroll ∧
    StatusIconSignals.connect_button_press_event_shape = EventShape.button ∧
    StatusIconSignals.connect_button_press_event_shape ≠ status_icon_event_trampoline_shape ∧
    status_icon_event_trampoline icon event f = guardedCall (f icon event) ∧
    status_icon_event_trampoline icon event (fun _ e => Outcome.normal e) =
      DispatchResult.returned event := by
  refine ⟨rfl, rfl, rfl, rfl, rfl, ?_, rfl, rfl⟩
  decide
